import Mathlib

/-!
Verification of the SQLite stress-test repository.

The development shallowly embeds the two source modules:

* `maintenance.py` — the power-on maintenance sequencer
  (`realizar_mantenimiento_power_on`), its helper steps
  (`verificar_integridad`, `realizar_checkpoint`,
  `limpiar_archivos_temporales`, `verificar_espacio`,
  `registrar_evento_inicio`, `registrar_error`) and the recovery handler
  (`intentar_recuperacion`).
* `SQLiteTest.py` — the stress driver loop (`run_stress_test`), the
  sampling verifier (`verify_data`) and the statistics aggregator
  (`get_database_stats`).

External collaborators (the SQLite engine, the filesystem, the clock,
`hashlib.md5`) are modelled as oracles/parameters: successive results of
`PRAGMA integrity_check` form a `Nat → Bool` oracle, free disk space and
wall-clock times are rationals, and the digest function is an arbitrary
`String → String` parameter, since the source uses it only as an opaque
deterministic fingerprint.
-/

namespace SQLiteTest

/-- Event types stored in the `system_events` table: the source inserts
exactly the strings POWER_ON and ERROR. -/
inductive EventType
  | POWER_ON
  | ERROR
deriving DecidableEq, Repr

/-- A row of the `system_events` table (id and timestamp omitted: they are
engine-assigned and never read back by the claims under study). -/
structure SystemEvent where
  event_type : EventType
  details : String
deriving DecidableEq, Repr

/-- Trace marks for the externally visible gateway calls the maintenance
code performs, in program order. -/
inductive Call
  | integrityCheck
  | checkpoint
  | cleanup
  | spaceCheck
  | eventLogInsert
  | errorRecord
  | recoveryInvoked
deriving DecidableEq, Repr

/-- Environment of a maintenance run: the oracle giving the result of the
k-th `PRAGMA integrity_check` issued during the run (false also covers a
`sqlite3.Error` raised by the check, which `verificar_integridad` turns
into a false return), and the free disk space reported by
`psutil.disk_usage` in megabytes. -/
structure MaintEnv where
  integrityResult : Nat → Bool
  freeSpaceMB : ℚ

/-- State threaded through a maintenance run: how many structural checks
have been issued so far, whether the `system_events` table exists, the
rows of `system_events`, the engine temp files present on disk, the trace
of gateway calls, and a count of error-level log lines. -/
structure MaintState where
  checkIdx : Nat
  hasEventsTable : Bool
  events : List SystemEvent
  tempFiles : List String
  trace : List Call
  logErrors : Nat
deriving DecidableEq, Repr

/-- The state of a fresh store: no `system_events` table, no events, no
stale temp artifacts, nothing traced yet. -/
def freshState : MaintState :=
  { checkIdx := 0, hasEventsTable := false, events := [], tempFiles := [],
    trace := [], logErrors := 0 }

/-- `verificar_integridad` (maintenance.py:8-26): runs
`PRAGMA integrity_check` and returns whether it answered ok; a non-ok
answer (or an engine error) is logged and yields false. -/
def verificar_integridad (env : MaintEnv) (s : MaintState) : Bool × MaintState :=
  let ok := env.integrityResult s.checkIdx
  (ok, { s with checkIdx := s.checkIdx + 1,
                trace := s.trace ++ [Call.integrityCheck],
                logErrors := if ok then s.logErrors else s.logErrors + 1 })

/-- `realizar_checkpoint` (maintenance.py:28-39): forces a WAL checkpoint;
any engine error is caught and logged, so the step is best-effort and
never changes control flow. -/
def realizar_checkpoint (s : MaintState) : MaintState :=
  { s with trace := s.trace ++ [Call.checkpoint] }

/-- The three engine temp artifacts `limpiar_archivos_temporales` removes
(maintenance.py:45-49). -/
def tempArtifactNames : List String :=
  ["stress_test.db-shm", "stress_test.db-wal", "stress_test.db-journal"]

/-- `limpiar_archivos_temporales` (maintenance.py:41-57): removes the
shared-memory, WAL and journal files when present; removal failures are
logged, not raised. -/
def limpiar_archivos_temporales (s : MaintState) : MaintState :=
  { s with tempFiles := s.tempFiles.filter (fun f => !tempArtifactNames.contains f),
           trace := s.trace ++ [Call.cleanup] }

/-- Required free space in MB, the default of `verificar_espacio`
(maintenance.py:59). -/
def requiredSpaceMB : ℚ := 100

/-- `verificar_espacio` (maintenance.py:59-77): false (with an error log
line) when free space is below the required threshold, true otherwise. -/
def verificar_espacio (env : MaintEnv) (s : MaintState) : Bool × MaintState :=
  if env.freeSpaceMB < requiredSpaceMB then
    (false, { s with trace := s.trace ++ [Call.spaceCheck],
                     logErrors := s.logErrors + 1 })
  else
    (true, { s with trace := s.trace ++ [Call.spaceCheck] })

/-- `registrar_evento_inicio` (maintenance.py:79-102): creates the
`system_events` table if absent and inserts one POWER_ON row. -/
def registrar_evento_inicio (s : MaintState) : MaintState :=
  { s with hasEventsTable := true,
           events := s.events ++
             [{ event_type := EventType.POWER_ON, details := "Inicio del sistema" }],
           trace := s.trace ++ [Call.eventLogInsert] }

/-- `registrar_error` (maintenance.py:104-119): inserts an ERROR row into
`system_events`; if the insert fails (in particular because the table does
not exist yet on a fresh store) the `sqlite3.Error` is caught and only
logged, so the function never raises and the event is dropped. -/
def registrar_error (details : String) (s : MaintState) : MaintState :=
  if s.hasEventsTable then
    { s with events := s.events ++
               [{ event_type := EventType.ERROR, details := details }],
             trace := s.trace ++ [Call.errorRecord] }
  else
    { s with trace := s.trace ++ [Call.errorRecord],
             logErrors := s.logErrors + 1 }

/-- `intentar_recuperacion` (maintenance.py:121-141): forced checkpoint,
temp-file cleanup, then one structural re-check; returns that check's
result. -/
def intentar_recuperacion (env : MaintEnv) (s : MaintState) : Bool × MaintState :=
  let s1 := { s with trace := s.trace ++ [Call.recoveryInvoked] }
  let s2 := realizar_checkpoint s1
  let s3 := limpiar_archivos_temporales s2
  verificar_integridad env s3

/-- The `except` branch of `realizar_mantenimiento_power_on`
(maintenance.py:171-178): record the error as a SystemEvent (best-effort),
then make the single recovery attempt; its result is the sequencer's
result. -/
def manejar_fallo (env : MaintEnv) (details : String) (s : MaintState) :
    Bool × MaintState :=
  intentar_recuperacion env (registrar_error details s)

/-- `realizar_mantenimiento_power_on` (maintenance.py:143-178): structural
check, checkpoint, cleanup, space check, POWER_ON event; a failed
structural check or space check raises, which lands in `manejar_fallo`. -/
def realizar_mantenimiento_power_on (env : MaintEnv) (s : MaintState) :
    Bool × MaintState :=
  let r1 := verificar_integridad env s
  if r1.1 then
    let s3 := limpiar_archivos_temporales (realizar_checkpoint r1.2)
    let r4 := verificar_espacio env s3
    if r4.1 then
      (true, registrar_evento_inicio r4.2)
    else
      manejar_fallo env ("Espacio insuficiente en disco") r4.2
  else
    manejar_fallo env ("Error de integridad en la base de datos") r1.2

/-- Outcome of constructing `SQLiteStressTest`. -/
inductive ConstructionResult
  | started
  | aborted
deriving DecidableEq, Repr

/-- `SQLiteStressTest.__init__` (SQLiteTest.py:42-44): if power-on
maintenance reports failure the constructor raises, so the write/verify
loop is never entered; otherwise the system proceeds to accept load. -/
def constructSystem (env : MaintEnv) (s : MaintState) :
    ConstructionResult × MaintState :=
  let r := realizar_mantenimiento_power_on env s
  if r.1 then (ConstructionResult.started, r.2) else (ConstructionResult.aborted, r.2)

/-- Configuration of the stress driver (SQLiteTest.py:18-28): pacing delay
between iterations and progress-report interval, both in seconds. -/
structure Config where
  pause_time : ℚ
  progress_interval : ℚ
deriving DecidableEq, Repr

/-- External inputs consumed by one iteration of `run_stress_test`: the
randomly generated payload, the wall-clock time read after the write, and
whether the engine raises `sqlite3.Error` at the INSERT or inside the
`verify_data` call of this iteration. -/
structure IterInput where
  value : String
  now : ℚ
  writeFails : Bool
  verifyFails : Bool
deriving DecidableEq, Repr

/-- Loop state of `run_stress_test` (SQLiteTest.py:158-208): the iteration
counter `i`, the start and last-progress times, and the observable effects:
rows written to `test_data`, the counter values at which `verify_data` was
invoked, the emitted progress reports as (counter, records-per-second)
pairs, the number of error log lines, and the number of pacing sleeps. -/
structure LoopState where
  i : Nat
  startTime : ℚ
  lastProgressTime : ℚ
  records : List (String × String)
  verifyInvocations : List Nat
  progressReports : List (Nat × ℚ)
  errorsLogged : Nat
  sleeps : Nat
deriving DecidableEq, Repr

/-- Loop state at the top of `run_stress_test` (SQLiteTest.py:158-160):
`i = 0`, `last_progress_time = start_time`, nothing done yet. -/
def initLoopState (startTime : ℚ) : LoopState :=
  { i := 0, startTime := startTime, lastProgressTime := startTime,
    records := [], verifyInvocations := [], progressReports := [],
    errorsLogged := 0, sleeps := 0 }

/-- One pass of the `while True` body of `run_stress_test`
(SQLiteTest.py:163-208), with the digest function as a parameter. The
`try` block writes the record, conditionally emits a progress report
(updating `last_progress_time`), invokes `verify_data` when
`i % 100 == 0`, increments `i`, and sleeps; a `sqlite3.Error` raised at
the INSERT or inside `verify_data` jumps to the `except` handler, which
logs the error and falls through to the next iteration, skipping
everything after the raise point. -/
def stressIteration (hash : String → String) (cfg : Config) (inp : IterInput)
    (s : LoopState) : LoopState :=
  if inp.writeFails then
    { s with errorsLogged := s.errorsLogged + 1 }
  else
    let withRecord := { s with records := s.records ++ [(inp.value, hash inp.value)] }
    let afterProgress :=
      if cfg.progress_interval ≤ inp.now - s.lastProgressTime then
        { withRecord with
            lastProgressTime := inp.now,
            progressReports := withRecord.progressReports ++
              [(s.i, if 0 < inp.now - s.startTime
                     then (s.i : ℚ) / (inp.now - s.startTime) else 0)] }
      else withRecord
    if s.i % 100 = 0 then
      let afterVerify :=
        { afterProgress with
            verifyInvocations := afterProgress.verifyInvocations ++ [s.i] }
      if inp.verifyFails then
        { afterVerify with errorsLogged := afterVerify.errorsLogged + 1 }
      else
        { afterVerify with i := s.i + 1, sleeps := afterVerify.sleeps + 1 }
    else
      { afterProgress with i := s.i + 1, sleeps := afterProgress.sleeps + 1 }

/-- The stress loop run over a finite list of iteration inputs. -/
def runStress (hash : String → String) (cfg : Config) (inputs : List IterInput)
    (s : LoopState) : LoopState :=
  inputs.foldl (fun st inp => stressIteration hash cfg inp st) s

/-- Whether the `try` block of this iteration raises a `sqlite3.Error`:
either the INSERT fails, or `verify_data` is reached (counter divisible by
100) and fails. -/
def iterRaises (inp : IterInput) (s : LoopState) : Bool :=
  inp.writeFails || ((s.i % 100 == 0) && inp.verifyFails)

/-- `verify_data` (SQLiteTest.py:245-255) applied to the sample the
gateway returned: for each sampled (value, checksum) row whose recomputed
digest differs from the stored checksum, one violation log line carrying
the expected (stored) and calculated digests. -/
def verify_data (hash : String → String) (sample : List (String × String)) :
    List (String × String) :=
  sample.foldl
    (fun acc p => if hash p.1 != p.2 then acc ++ [(p.2, hash p.1)] else acc) []

/-- The gateway contract of `SELECT value, checksum FROM test_data ORDER
BY RANDOM() LIMIT 10` (SQLiteTest.py:251): any sample it can return has at
most 10 rows, all drawn from the stored rows. -/
def isSample (records sample : List (String × String)) : Prop :=
  sample.length ≤ 10 ∧ ∀ p ∈ sample, p ∈ records

/-- The integrity fields of the report built by `get_database_stats`
(SQLiteTest.py:124-133). -/
structure IntegrityStats where
  total_checked : Nat
  corrupted_records : Nat
  integrity_percentage : ℚ
deriving DecidableEq, Repr

/-- The integrity-scan part of `get_database_stats`
(SQLiteTest.py:124-133): fold over every stored row counting rows checked
and rows whose recomputed digest differs from the stored checksum, then
`((total_checked - corrupted_count) / total_checked * 100) if
total_checked > 0 else 100`. -/
def get_database_stats (hash : String → String)
    (rows : List (String × String)) : IntegrityStats :=
  let counts := rows.foldl
    (fun tc p => (tc.1 + 1, if hash p.1 != p.2 then tc.2 + 1 else tc.2))
    ((0 : Nat), (0 : Nat))
  { total_checked := counts.1,
    corrupted_records := counts.2,
    integrity_percentage :=
      if 0 < counts.1
      then ((counts.1 : ℚ) - (counts.2 : ℚ)) / (counts.1 : ℚ) * 100
      else 100 }

/-! Helper lemmas shared by the claim theorems. -/

/-- A clean iteration (no write failure, no verify failure) increments the
iteration counter by one. -/
lemma stressIteration_clean_i (hash : String → String) (cfg : Config)
    (inp : IterInput) (s : LoopState) (hw : inp.writeFails = false)
    (hv : inp.verifyFails = false) :
    (stressIteration hash cfg inp s).i = s.i + 1 := by
  unfold stressIteration
  rw [hw]
  by_cases hp : cfg.progress_interval ≤ inp.now - s.lastProgressTime <;>
    by_cases hm : s.i % 100 = 0 <;> simp [hp, hm, hv]

/-- A clean iteration invokes `verify_data` exactly when the current
counter is divisible by 100. -/
lemma stressIteration_clean_verify (hash : String → String) (cfg : Config)
    (inp : IterInput) (s : LoopState) (hw : inp.writeFails = false)
    (hv : inp.verifyFails = false) :
    (stressIteration hash cfg inp s).verifyInvocations =
      s.verifyInvocations ++ (if s.i % 100 = 0 then [s.i] else []) := by
  unfold stressIteration
  rw [hw]
  by_cases hp : cfg.progress_interval ≤ inp.now - s.lastProgressTime <;>
    by_cases hm : s.i % 100 = 0 <;> simp [hp, hm, hv]

/-- Over a list of clean iterations, the counter advances by the list
length and the verifier fires exactly at the counter values divisible by
100. -/
lemma runStress_clean (hash : String → String) (cfg : Config)
    (inputs : List IterInput) (s : LoopState)
    (h : ∀ inp ∈ inputs, inp.writeFails = false ∧ inp.verifyFails = false) :
    (runStress hash cfg inputs s).i = s.i + inputs.length ∧
    (runStress hash cfg inputs s).verifyInvocations =
      s.verifyInvocations ++
        (((List.range inputs.length).map (fun k => s.i + k)).filter
          (fun k => k % 100 == 0)) := by
  induction inputs generalizing s with
  | nil => simp [runStress]
  | cons inp rest ih =>
    have hw := (h inp (by simp)).1
    have hv := (h inp (by simp)).2
    have hrest : ∀ x ∈ rest, x.writeFails = false ∧ x.verifyFails = false :=
      fun x hx => h x (by simp [hx])
    have hstep : runStress hash cfg (inp :: rest) s =
        runStress hash cfg rest (stressIteration hash cfg inp s) := rfl
    rw [hstep]
    obtain ⟨ihi, ihv⟩ := ih (stressIteration hash cfg inp s) hrest
    rw [ihi, ihv, stressIteration_clean_i hash cfg inp s hw hv,
        stressIteration_clean_verify hash cfg inp s hw hv]
    constructor
    · simp [List.length_cons]; omega
    · rw [List.length_cons, List.range_succ_eq_map]
      simp only [List.map_cons, List.map_map]
      have hm : (List.range rest.length).map
            ((fun k => s.i + k) ∘ (fun k => k + 1)) =
          (List.range rest.length).map (fun k => s.i + 1 + k) := by
        apply List.map_congr_left
        intro a _
        simp [Function.comp]
        omega
      rw [hm]
      by_cases hmod : s.i % 100 = 0 <;>
        simp [hmod, List.filter_cons, List.append_assoc]

/-- The counting fold of `get_database_stats` computes the number of rows
and the number of digest mismatches. -/
lemma stats_fold (hash : String → String) (rows : List (String × String)) :
    ∀ t c : Nat,
    rows.foldl
        (fun tc p => (tc.1 + 1, if hash p.1 != p.2 then tc.2 + 1 else tc.2))
        (t, c) =
      (t + rows.length,
       c + (rows.filter (fun p => hash p.1 != p.2)).length) := by
  induction rows with
  | nil => intro t c; simp
  | cons p rest ih =>
    intro t c
    have hstep : (p :: rest).foldl
        (fun tc p => (tc.1 + 1, if hash p.1 != p.2 then tc.2 + 1 else tc.2))
        (t, c) =
        rest.foldl
          (fun tc p => (tc.1 + 1, if hash p.1 != p.2 then tc.2 + 1 else tc.2))
          (t + 1, if hash p.1 != p.2 then c + 1 else c) := rfl
    rw [hstep, ih]
    cases hb : hash p.1 != p.2 <;>
      simp [hb, List.filter_cons, Prod.ext_iff] <;> omega

/-- Closed form of the integrity fields of `get_database_stats`. -/
lemma get_database_stats_eq (hash : String → String)
    (rows : List (String × String)) :
    get_database_stats hash rows =
      { total_checked := rows.length,
        corrupted_records := (rows.filter (fun p => hash p.1 != p.2)).length,
        integrity_percentage :=
          if 0 < rows.length
          then ((rows.length : ℚ) -
                ((rows.filter (fun p => hash p.1 != p.2)).length : ℚ)) /
               (rows.length : ℚ) * 100
          else 100 } := by
  simp only [get_database_stats]
  rw [stats_fold hash rows 0 0]
  simp

/-- Closed form of `verify_data`: one violation entry, carrying the stored
and the recomputed digest, per mismatching sampled row. -/
lemma verify_data_eq (hash : String → String)
    (sample : List (String × String)) :
    verify_data hash sample =
      (sample.filter (fun p => hash p.1 != p.2)).map
        (fun p => (p.2, hash p.1)) := by
  unfold verify_data
  suffices h : ∀ acc : List (String × String),
      sample.foldl
        (fun acc p =>
          if hash p.1 != p.2 then acc ++ [(p.2, hash p.1)] else acc)
        acc =
      acc ++ (sample.filter (fun p => hash p.1 != p.2)).map
        (fun p => (p.2, hash p.1)) by
    simpa using h []
  induction sample with
  | nil => intro acc; simp
  | cons p rest ih =>
    intro acc
    have hstep : (p :: rest).foldl
        (fun acc p =>
          if hash p.1 != p.2 then acc ++ [(p.2, hash p.1)] else acc)
        acc =
        rest.foldl
          (fun acc p =>
            if hash p.1 != p.2 then acc ++ [(p.2, hash p.1)] else acc)
          (if hash p.1 != p.2 then acc ++ [(p.2, hash p.1)] else acc) := rfl
    rw [hstep, ih]
    cases hb : hash p.1 != p.2 <;> simp [hb, List.filter_cons]

/-! Claim theorems. -/

/-- C1, counterexample: with every structural check passing but free disk
space 0 MB (below the 100 MB threshold), the maintenance sequencer fails
at SPACE_CHECK, the recovery handler's structural re-check passes, and the
code then reports overall maintenance SUCCESS and system construction
proceeds to accept load — contradicting the claim that the result must
still be failure. -/
theorem space_failure_accepts_load_cx :
    (realizar_mantenimiento_power_on
        { integrityResult := fun _ => true, freeSpaceMB := 0 } freshState).1 =
      true ∧
    (constructSystem
        { integrityResult := fun _ => true, freeSpaceMB := 0 } freshState).1 =
      ConstructionResult.started := by
  constructor <;> rfl

/-- C1, amended: if SPACE_CHECK fails (free space below the threshold)
while both structural checks pass, the recovery handler is invoked and —
since recovery success is judged by the structural re-check alone, with no
re-check of free space — the overall maintenance result is success and
system construction proceeds to accept load. -/
theorem space_failure_recovery (env : MaintEnv) (s : MaintState)
    (h1 : env.integrityResult s.checkIdx = true)
    (h2 : env.freeSpaceMB < requiredSpaceMB)
    (h3 : env.integrityResult (s.checkIdx + 1) = true) :
    (realizar_mantenimiento_power_on env s).1 = true ∧
    (constructSystem env s).1 = ConstructionResult.started ∧
    Call.recoveryInvoked ∈ (realizar_mantenimiento_power_on env s).2.trace := by
  have hmain : (realizar_mantenimiento_power_on env s).1 = true ∧
      Call.recoveryInvoked ∈ (realizar_mantenimiento_power_on env s).2.trace := by
    by_cases htab : s.hasEventsTable = true <;>
      simp [realizar_mantenimiento_power_on, verificar_integridad,
            realizar_checkpoint, limpiar_archivos_temporales, verificar_espacio,
            manejar_fallo, intentar_recuperacion, registrar_error,
            h1, h2, h3, htab]
  refine ⟨hmain.1, ?_, hmain.2⟩
  simp [constructSystem, hmain.1]

/-- Witness for C1's amended theorem at a concrete environment: zero free
space, all structural checks passing. -/
theorem space_failure_recovery_witness :
    (0 : ℚ) < requiredSpaceMB ∧
    (constructSystem
        { integrityResult := fun _ => true, freeSpaceMB := 0 } freshState).1 =
      ConstructionResult.started :=
  ⟨by decide,
   (space_failure_recovery
      { integrityResult := fun _ => true, freeSpaceMB := 0 } freshState
      rfl (by decide) rfl).2.1⟩

/-- C2, counterexample: running the stress driver from a fresh loop state
on clean iterations, the sampling verifier has already fired after the
very first iteration (the counter starts at 0 and `i % 100 == 0` is
tested before the increment), and over 100 iterations it fires exactly
once, at counter 0 — not at the 100th iteration boundary as claimed. -/
theorem verifier_first_iteration_cx :
    (runStress (fun v => v) { pause_time := 10, progress_interval := 10 }
        (List.replicate 1
          { value := "a", now := 0, writeFails := false, verifyFails := false })
        (initLoopState 0)).verifyInvocations = [0] ∧
    (runStress (fun v => v) { pause_time := 10, progress_interval := 10 }
        (List.replicate 100
          { value := "a", now := 0, writeFails := false, verifyFails := false })
        (initLoopState 0)).verifyInvocations = [0] := by
  constructor
  · rw [(runStress_clean (fun v => v) ⟨10, 10⟩ _ (initLoopState 0)
      (by decide)).2]
    decide
  · rw [(runStress_clean (fun v => v) ⟨10, 10⟩ _ (initLoopState 0)
      (by decide)).2]
    decide

/-- C2, amended: a clean iteration invokes the sampling verifier exactly
when the pre-increment counter is divisible by 100 (so at the 1st, 101st,
201st, ... iterations of a run); in particular, 100 clean iterations from
a fresh loop state invoke it exactly once, at the first iteration
(counter 0), regardless of how many records already exist in the store. -/
theorem verifier_cadence (hash : String → String) (cfg : Config) (t0 : ℚ)
    (inputs : List IterInput)
    (hclean : ∀ inp ∈ inputs, inp.writeFails = false ∧ inp.verifyFails = false)
    (hlen : inputs.length = 100) :
    (∀ (inp : IterInput) (s : LoopState), inp.writeFails = false →
        inp.verifyFails = false →
        (stressIteration hash cfg inp s).verifyInvocations =
          s.verifyInvocations ++ (if s.i % 100 = 0 then [s.i] else [])) ∧
    (runStress hash cfg inputs (initLoopState t0)).verifyInvocations = [0] := by
  refine ⟨fun inp s hw hv => stressIteration_clean_verify hash cfg inp s hw hv, ?_⟩
  rw [(runStress_clean hash cfg inputs (initLoopState t0) hclean).2, hlen]
  show ([] : List Nat) ++
      ((List.range 100).map (fun k => 0 + k)).filter (fun k => k % 100 == 0) =
    [0]
  decide

/-- Witness for C2's amended theorem at concrete clean inputs. -/
theorem verifier_cadence_witness :
    (∀ inp ∈ List.replicate 100
        ({ value := "b", now := 5, writeFails := false, verifyFails := false } :
          IterInput),
      inp.writeFails = false ∧ inp.verifyFails = false) ∧
    (List.replicate 100
        ({ value := "b", now := 5, writeFails := false, verifyFails := false } :
          IterInput)).length = 100 ∧
    (runStress (fun v => v) { pause_time := 1, progress_interval := 1 }
        (List.replicate 100
          { value := "b", now := 5, writeFails := false, verifyFails := false })
        (initLoopState 5)).verifyInvocations = [0] :=
  ⟨by decide, by decide,
   (verifier_cadence (fun v => v) ⟨1, 1⟩ 5 _ (by decide) (by decide)).2⟩

/-- C3: the recovery handler performs, in order, forced checkpoint,
stale-artifact cleanup and a structural re-check, and returns true exactly
when that final structural check passes; a maintenance run started from a
fresh state invokes it at most once; and when the maintenance result is
failure, system construction aborts (the write/verify loop is never
entered). -/
theorem recovery_contract (env : MaintEnv) (s : MaintState) :
    ((intentar_recuperacion env s).1 = env.integrityResult s.checkIdx ∧
     (intentar_recuperacion env s).2.trace =
       s.trace ++ [Call.recoveryInvoked, Call.checkpoint, Call.cleanup,
                   Call.integrityCheck]) ∧
    (realizar_mantenimiento_power_on env freshState).2.trace.count
        Call.recoveryInvoked ≤ 1 ∧
    ((realizar_mantenimiento_power_on env s).1 = false →
      (constructSystem env s).1 = ConstructionResult.aborted) := by
  refine ⟨⟨?_, ?_⟩, ?_, ?_⟩
  · simp [intentar_recuperacion, realizar_checkpoint,
          limpiar_archivos_temporales, verificar_integridad]
  · simp [intentar_recuperacion, realizar_checkpoint,
          limpiar_archivos_temporales, verificar_integridad]
  · by_cases h0 : env.integrityResult 0 = true <;>
      by_cases hs : env.freeSpaceMB < requiredSpaceMB <;>
      simp [realizar_mantenimiento_power_on, verificar_integridad,
            realizar_checkpoint, limpiar_archivos_temporales,
            verificar_espacio, registrar_evento_inicio, manejar_fallo,
            intentar_recuperacion, registrar_error, freshState, h0, hs,
            List.count_cons, List.count_append]
  · intro hfail
    simp [constructSystem, hfail]

/-- Witness for C3 at an environment whose structural checks always fail:
maintenance fails and construction aborts. -/
theorem recovery_contract_witness :
    (realizar_mantenimiento_power_on
        { integrityResult := fun _ => false, freeSpaceMB := 200 }
        freshState).1 = false ∧
    (constructSystem
        { integrityResult := fun _ => false, freeSpaceMB := 200 }
        freshState).1 = ConstructionResult.aborted :=
  ⟨by rfl,
   (recovery_contract
      { integrityResult := fun _ => false, freeSpaceMB := 200 }
      freshState).2.2 (by rfl)⟩

/-- C4: when the first structural check passes and free space is at or
above the threshold, the maintenance sequencer performs INTEGRITY_CHECK,
CHECKPOINT, CLEANUP, SPACE_CHECK and EVENT_LOG in that order, returns
success without ever invoking the recovery handler, and appends exactly
one POWER_ON SystemEvent. -/
theorem maintenance_happy_path (env : MaintEnv) (s : MaintState)
    (hint : env.integrityResult s.checkIdx = true)
    (hspace : ¬ env.freeSpaceMB < requiredSpaceMB) :
    (realizar_mantenimiento_power_on env s).1 = true ∧
    (realizar_mantenimiento_power_on env s).2.trace =
      s.trace ++ [Call.integrityCheck, Call.checkpoint, Call.cleanup,
                  Call.spaceCheck, Call.eventLogInsert] ∧
    (realizar_mantenimiento_power_on env s).2.events =
      s.events ++ [{ event_type := EventType.POWER_ON,
                     details := "Inicio del sistema" }] := by
  simp [realizar_mantenimiento_power_on, verificar_integridad,
        realizar_checkpoint, limpiar_archivos_temporales, verificar_espacio,
        registrar_evento_inicio, hint, hspace]

/-- Witness for C4 at a concrete healthy environment. -/
theorem maintenance_happy_path_witness :
    ¬ (200 : ℚ) < requiredSpaceMB ∧
    (realizar_mantenimiento_power_on
        { integrityResult := fun _ => true, freeSpaceMB := 200 }
        freshState).1 = true :=
  ⟨by decide,
   (maintenance_happy_path
      { integrityResult := fun _ => true, freeSpaceMB := 200 }
      freshState rfl (by decide)).1⟩

/-- C5: in every report built by `get_database_stats`, `total_checked`
counts every stored record, `corrupted_records` counts exactly the
records whose recomputed digest differs from the stored checksum, and
`integrity_percentage` equals
`100 * (total_checked - corrupted_records) / total_checked` when
`total_checked > 0` and 100 when `total_checked = 0`. -/
theorem integrity_percentage_correct (hash : String → String)
    (rows : List (String × String)) :
    (get_database_stats hash rows).total_checked = rows.length ∧
    (get_database_stats hash rows).corrupted_records =
      (rows.filter (fun p => hash p.1 != p.2)).length ∧
    (0 < (get_database_stats hash rows).total_checked →
      (get_database_stats hash rows).integrity_percentage =
        100 * (((get_database_stats hash rows).total_checked : ℚ) -
               ((get_database_stats hash rows).corrupted_records : ℚ)) /
          ((get_database_stats hash rows).total_checked : ℚ)) ∧
    ((get_database_stats hash rows).total_checked = 0 →
      (get_database_stats hash rows).integrity_percentage = 100) := by
  rw [get_database_stats_eq]
  refine ⟨rfl, rfl, ?_, ?_⟩
  · intro hpos
    dsimp only at hpos ⊢
    rw [if_pos hpos]
    ring
  · intro h0
    dsimp only at h0 ⊢
    rw [if_neg (by simp [h0])]

/-- Witness for C5 on a two-row store with one corrupted record. -/
theorem integrity_percentage_correct_witness :
    0 < (get_database_stats (fun v => v) [("a", "a"), ("b", "x")]).total_checked ∧
    (get_database_stats (fun v => v) [("a", "a"), ("b", "x")]).integrity_percentage =
      100 * (((get_database_stats (fun v => v)
                 [("a", "a"), ("b", "x")]).total_checked : ℚ) -
             ((get_database_stats (fun v => v)
                 [("a", "a"), ("b", "x")]).corrupted_records : ℚ)) /
        ((get_database_stats (fun v => v)
            [("a", "a"), ("b", "x")]).total_checked : ℚ) :=
  ⟨by decide,
   (integrity_percentage_correct (fun v => v)
      [("a", "a"), ("b", "x")]).2.2.1 (by decide)⟩

/-- C6: a storage error inside the loop body (at the INSERT, or at the
verifier call of that iteration) is logged, leaves the iteration counter
unchanged (the iteration is skipped), and the loop goes on to process the
remaining iterations — the error is never fatal. -/
theorem storage_error_not_fatal (hash : String → String) (cfg : Config)
    (inp : IterInput) (s : LoopState) (rest : List IterInput) :
    (iterRaises inp s = true →
      (stressIteration hash cfg inp s).errorsLogged = s.errorsLogged + 1 ∧
      (stressIteration hash cfg inp s).i = s.i) ∧
    runStress hash cfg (inp :: rest) s =
      runStress hash cfg rest (stressIteration hash cfg inp s) := by
  constructor
  · intro hr
    by_cases hw : inp.writeFails = true
    · simp [stressIteration, hw]
    · have hw' : inp.writeFails = false := by simpa using hw
      rw [iterRaises, hw'] at hr
      simp only [Bool.false_or, Bool.and_eq_true, beq_iff_eq] at hr
      obtain ⟨hm, hv⟩ := hr
      by_cases hp : cfg.progress_interval ≤ inp.now - s.lastProgressTime <;>
        simp [stressIteration, hw', hp, hm, hv]
  · rfl

/-- Witness for C6 at a concrete failing write. -/
theorem storage_error_not_fatal_witness :
    iterRaises
      { value := "a", now := 0, writeFails := true, verifyFails := false }
      (initLoopState 0) = true ∧
    (stressIteration (fun v => v) { pause_time := 10, progress_interval := 10 }
        { value := "a", now := 0, writeFails := true, verifyFails := false }
        (initLoopState 0)).errorsLogged = (initLoopState 0).errorsLogged + 1 :=
  ⟨by decide,
   ((storage_error_not_fatal (fun v => v) ⟨10, 10⟩
      { value := "a", now := 0, writeFails := true, verifyFails := false }
      (initLoopState 0) []).1 (by decide)).1⟩

/-- C7: `verify_data` logs one violation, carrying the stored (expected)
and the recomputed digest, for exactly the mismatching rows of the sample
the gateway returned (a sample of at most 10 stored rows); hence on a
store where every record satisfies digest(value) = checksum, any sample
draw reports zero violations. -/
theorem clean_sample_zero_violations (hash : String → String)
    (records sample : List (String × String))
    (hs : isSample records sample)
    (hclean : ∀ p ∈ records, hash p.1 = p.2) :
    verify_data hash sample =
      (sample.filter (fun p => hash p.1 != p.2)).map
        (fun p => (p.2, hash p.1)) ∧
    verify_data hash sample = [] := by
  refine ⟨verify_data_eq hash sample, ?_⟩
  rw [verify_data_eq]
  have hnil : sample.filter (fun p => hash p.1 != p.2) = [] := by
    rw [List.filter_eq_nil_iff]
    intro p hp
    simp [hclean p (hs.2 p hp)]
  rw [hnil]
  simp

/-- Witness for C7 on a concrete clean store and sample. -/
theorem clean_sample_zero_violations_witness :
    isSample [("a", "a")] [("a", "a")] ∧
    verify_data (fun v => v) [("a", "a")] = [] :=
  ⟨⟨by decide, by decide⟩,
   (clean_sample_zero_violations (fun v => v) [("a", "a")] [("a", "a")]
      ⟨by decide, by decide⟩ (by decide)).2⟩

/-- C8: in an iteration whose write succeeds, the progress reporter fires
exactly when `now - last_report_time >= progress_interval` (otherwise the
reports and `last_progress_time` are unchanged); when it fires it reports
throughput `i / (now - start_time)`, and when elapsed time is zero the
guarded division reports 0 instead of raising. -/
theorem progress_reporter_guarded (hash : String → String) (cfg : Config)
    (inp : IterInput) (s : LoopState) (hw : inp.writeFails = false) :
    (¬ cfg.progress_interval ≤ inp.now - s.lastProgressTime →
       (stressIteration hash cfg inp s).progressReports = s.progressReports ∧
       (stressIteration hash cfg inp s).lastProgressTime =
         s.lastProgressTime) ∧
    (cfg.progress_interval ≤ inp.now - s.lastProgressTime →
       (stressIteration hash cfg inp s).progressReports =
         s.progressReports ++
           [(s.i, if 0 < inp.now - s.startTime
                  then (s.i : ℚ) / (inp.now - s.startTime) else 0)] ∧
       (stressIteration hash cfg inp s).lastProgressTime = inp.now) ∧
    (inp.now - s.startTime = 0 →
     cfg.progress_interval ≤ inp.now - s.lastProgressTime →
       (stressIteration hash cfg inp s).progressReports =
         s.progressReports ++ [(s.i, 0)]) := by
  refine ⟨?_, ?_, ?_⟩
  · intro hp
    by_cases hm : s.i % 100 = 0 <;>
      by_cases hv : inp.verifyFails = true <;>
      simp [stressIteration, hw, hp, hm, hv]
  · intro hp
    by_cases hm : s.i % 100 = 0 <;>
      by_cases hv : inp.verifyFails = true <;>
      simp [stressIteration, hw, hp, hm, hv]
  · intro hz hp
    have hrz : ¬ (0 : ℚ) < inp.now - s.startTime := by
      rw [hz]
      exact lt_irrefl 0
    by_cases hm : s.i % 100 = 0 <;>
      by_cases hv : inp.verifyFails = true <;>
      simp [stressIteration, hw, hp, hm, hv, hrz]

/-- Witness for C8: zero elapsed time, report interval met, throughput
reported as 0. -/
theorem progress_reporter_guarded_witness :
    (0 : ℚ) - (initLoopState 0).startTime = 0 ∧
    ({ pause_time := 10, progress_interval := 0 } : Config).progress_interval ≤
      (0 : ℚ) - (initLoopState 0).lastProgressTime ∧
    (stressIteration (fun v => v) { pause_time := 10, progress_interval := 0 }
        { value := "a", now := 0, writeFails := false, verifyFails := false }
        (initLoopState 0)).progressReports =
      (initLoopState 0).progressReports ++ [((initLoopState 0).i, 0)] :=
  ⟨by simp [initLoopState], by simp [initLoopState],
   (progress_reporter_guarded (fun v => v) ⟨10, 0⟩
      { value := "a", now := 0, writeFails := false, verifyFails := false }
      (initLoopState 0) rfl).2.2 (by simp [initLoopState])
      (by simp [initLoopState])⟩

/-- C9, counterexample: an iteration in which a storage error is raised by
the verifier call, after the progress block already fired, does leave
`last_progress_time` updated — contradicting the claim that the loop
state is unchanged in every iteration whose gateway call raises. -/
theorem error_iteration_updates_progress_cx :
    iterRaises { value := "a", now := 10, writeFails := false, verifyFails := true }
      (initLoopState 0) = true ∧
    (stressIteration (fun v => v) { pause_time := 10, progress_interval := 10 }
        { value := "a", now := 10, writeFails := false, verifyFails := true }
        (initLoopState 0)).lastProgressTime ≠
      (initLoopState 0).lastProgressTime := by
  constructor
  · decide
  · simp [stressIteration, initLoopState]

/-- C9, amended: if the write itself fails, the error branch leaves the
whole loop state unchanged except for the error log (no counter increment,
no `last_progress_time` update, no record append, no pacing sleep); if the
error is instead raised by the verifier call, the counter is still not
incremented and the pacing sleep is still skipped, but `last_progress_time`
may already have been updated by the progress block of that iteration. -/
theorem error_branch_frame (hash : String → String) (cfg : Config)
    (inp : IterInput) (s : LoopState) :
    (inp.writeFails = true →
      stressIteration hash cfg inp s =
        { s with errorsLogged := s.errorsLogged + 1 }) ∧
    (inp.writeFails = false → inp.verifyFails = true → s.i % 100 = 0 →
      (stressIteration hash cfg inp s).i = s.i ∧
      (stressIteration hash cfg inp s).sleeps = s.sleeps) := by
  constructor
  · intro hw
    simp [stressIteration, hw]
  · intro hw hv hm
    by_cases hp : cfg.progress_interval ≤ inp.now - s.lastProgressTime <;>
      simp [stressIteration, hw, hp, hm, hv]

/-- Witness for C9's amended theorem at a concrete failing write. -/
theorem error_branch_frame_witness :
    ({ value := "a", now := 0, writeFails := true, verifyFails := false } :
      IterInput).writeFails = true ∧
    stressIteration (fun v => v) { pause_time := 10, progress_interval := 10 }
        { value := "a", now := 0, writeFails := true, verifyFails := false }
        (initLoopState 0) =
      { initLoopState 0 with
          errorsLogged := (initLoopState 0).errorsLogged + 1 } :=
  ⟨rfl,
   (error_branch_frame (fun v => v) ⟨10, 10⟩
      { value := "a", now := 0, writeFails := true, verifyFails := false }
      (initLoopState 0)).1 rfl⟩

/-- C10: `registrar_error` never raises — when the `system_events` table
is absent the failed insert is caught, logged and the event silently
dropped; consequently on a fresh store whose maintenance run fails before
reaching EVENT_LOG (structural check false, or space check false), no
ERROR SystemEvent is stored, and the sequence still proceeds to invoke
the recovery handler. -/
theorem error_event_dropped (env : MaintEnv) (s : MaintState) (d : String)
    (htab : s.hasEventsTable = false) (hev : s.events = [])
    (hfail : env.integrityResult s.checkIdx = false ∨
             env.freeSpaceMB < requiredSpaceMB) :
    (registrar_error d s).events = s.events ∧
    (registrar_error d s).logErrors = s.logErrors + 1 ∧
    (realizar_mantenimiento_power_on env s).2.events = [] ∧
    Call.recoveryInvoked ∈ (realizar_mantenimiento_power_on env s).2.trace := by
  refine ⟨by simp [registrar_error, htab], by simp [registrar_error, htab],
          ?_, ?_⟩ <;>
  · rcases hfail with hf | hf
    · simp [realizar_mantenimiento_power_on, verificar_integridad,
            manejar_fallo, intentar_recuperacion, registrar_error,
            realizar_checkpoint, limpiar_archivos_temporales, hf, htab, hev]
    · by_cases h0 : env.integrityResult s.checkIdx = true <;>
        simp [realizar_mantenimiento_power_on, verificar_integridad,
              manejar_fallo, intentar_recuperacion, registrar_error,
              realizar_checkpoint, limpiar_archivos_temporales,
              verificar_espacio, hf, h0, htab, hev]

/-- Witness for C10 on a fresh store with insufficient free space. -/
theorem error_event_dropped_witness :
    freshState.hasEventsTable = false ∧
    (0 : ℚ) < requiredSpaceMB ∧
    (registrar_error ("x") freshState).events = freshState.events ∧
    Call.recoveryInvoked ∈
      (realizar_mantenimiento_power_on
        { integrityResult := fun _ => true, freeSpaceMB := 0 }
        freshState).2.trace :=
  ⟨rfl, by decide,
   (error_event_dropped
      { integrityResult := fun _ => true, freeSpaceMB := 0 }
      freshState ("x") rfl rfl (Or.inr (by decide))).1,
   (error_event_dropped
      { integrityResult := fun _ => true, freeSpaceMB := 0 }
      freshState ("x") rfl rfl (Or.inr (by decide))).2.2.2⟩

end SQLiteTest
